import Mathlib

/-!
Verification of the WebP container demultiplexer and streaming decode adapter
(src/webp/decoder.rs).

The Rust source builds its container grammar from nom parser-combinator macros
over byte slices.  We embed bytes as natural numbers (each value is a `u8`,
i.e. `< 256`; `le_u32` reduces every byte mod 256 so the embedding is total)
and a parse outcome as `PResult`, mirroring nom's IResult:
done/Error/Incomplete.  Each small combinator below embeds the corresponding
nom macro, and each named parser (`chunk_size`, `vp8_chunk`, ..., `webp_file`)
is the composition written in the source.

The streaming adapter `WebpDecoder` (lazy parse, cached frame, scanline
cursor) is embedded as explicit state passing; the external VP8 bitstream
decoder of `super::vp8` is out of scope per the source layout and is a
parameter `dec` of every adapter operation.
-/

namespace WebpSpec

/-- Outcome of a nom-style parser on a byte list: mirrors nom IResult with
done (remaining input, output), Error, and Incomplete. -/
inductive PResult (α : Type) where
  | done (rest : List Nat) (out : α)
  | error
  | incomplete
deriving DecidableEq, Repr

/-- Sequencing of parsers, as nom chains parsers inside do_parse!/chain!:
errors and incompleteness propagate. -/
def pbind {α β : Type} (p : List Nat → PResult α) (f : α → List Nat → PResult β)
    (i : List Nat) : PResult β :=
  match p i with
  | .done rest a => f a rest
  | .error => .error
  | .incomplete => .incomplete

/-- Embeds nom map!: apply a function to the parser's output. -/
def pmap {α β : Type} (p : List Nat → PResult α) (f : α → β) (i : List Nat) : PResult β :=
  match p i with
  | .done rest a => .done rest (f a)
  | .error => .error
  | .incomplete => .incomplete

/-- Embeds nom preceded!: run the first parser, discard its output, run the
second. -/
def ppreceded {α β : Type} (p : List Nat → PResult α) (q : List Nat → PResult β)
    (i : List Nat) : PResult β :=
  pbind p (fun _ => q) i

/-- Embeds nom tag!: match a fixed byte string.  The common prefix of input
and tag is compared first; a mismatch there is an Error, while input that is
a proper prefix of the tag is Incomplete.  On success the cursor advances past
the tag; on failure the input is untouched (non-destructive matching). -/
def ptag (t : List Nat) (i : List Nat) : PResult (List Nat) :=
  if t.length ≤ i.length then
    if i.take t.length = t then .done (i.drop t.length) t else .error
  else
    if i = t.take i.length then .incomplete else .error

/-- Embeds nom take!: consume exactly n bytes, Incomplete if fewer remain. -/
def ptake (n : Nat) (i : List Nat) : PResult (List Nat) :=
  if n ≤ i.length then .done (i.drop n) (i.take n) else .incomplete

/-- Embeds nom cond!: run the parser only when the flag holds, otherwise
succeed with none while consuming nothing. -/
def pcond {α : Type} (b : Bool) (p : List Nat → PResult α) (i : List Nat) :
    PResult (Option α) :=
  if b then pmap p some i else .done i none

/-- Embeds nom opt!: success is wrapped in some, an Error becomes a none
success with the cursor unchanged, Incomplete propagates. -/
def popt {α : Type} (p : List Nat → PResult α) (i : List Nat) : PResult (Option α) :=
  match p i with
  | .done rest a => .done rest (some a)
  | .error => .done i none
  | .incomplete => .incomplete

/-- Embeds nom complete!: turn Incomplete into a hard Error. -/
def pcomplete {α : Type} (p : List Nat → PResult α) (i : List Nat) : PResult α :=
  match p i with
  | .done rest a => .done rest a
  | .error => .error
  | .incomplete => .error

/-- Embeds nom alt!: try the first alternative, fall through to the second
only on Error (Incomplete returns immediately, as in nom). -/
def palt {α : Type} (p q : List Nat → PResult α) (i : List Nat) : PResult α :=
  match p i with
  | .done rest a => .done rest a
  | .error => q i
  | .incomplete => .incomplete

/-- Embeds nom le_u32: read a 4-byte little-endian unsigned integer. -/
def le_u32 : List Nat → PResult Nat
  | b0 :: b1 :: b2 :: b3 :: rest =>
      .done rest (b0 % 256 + 256 * (b1 % 256) + 65536 * (b2 % 256) + 16777216 * (b3 % 256))
  | _ => .incomplete

/-- Embeds nom length_bytes!(le_u32): read a 4-byte LE length n, then consume
and return exactly the next n bytes. -/
def plength_bytes (i : List Nat) : PResult (List Nat) :=
  pbind le_u32 ptake i

/-- Embeds nom flat_map!(p, q): run q on the bytes produced by p; the
remaining input is whatever p left, and any leftover of q inside those bytes
is discarded. -/
def pflat_map {α : Type} (p : List Nat → PResult (List Nat))
    (q : List Nat → PResult α) (i : List Nat) : PResult α :=
  match p i with
  | .done rest body =>
      match q body with
      | .done _ a => .done rest a
      | .error => .error
      | .incomplete => .incomplete
  | .error => .error
  | .incomplete => .incomplete

/-- Embeds chunk_size (decoder.rs lines 18-23): read a 4-byte LE length,
take that many bytes as the result, and if the length is odd drop one extra
padding byte. -/
def chunk_size : List Nat → PResult (List Nat) :=
  pbind le_u32 (fun len =>
    pbind (ptake len) (fun result =>
      pbind (pcond (len % 2 != 0) (ptake 1)) (fun _ =>
        fun i => .done i result)))

/-- ASCII bytes of the RIFF tag. -/
def tagRIFF : List Nat := [82, 73, 70, 70]
/-- ASCII bytes of the WEBP form tag. -/
def tagWEBP : List Nat := [87, 69, 66, 80]
/-- ASCII bytes of the VP8 chunk tag, with its trailing space. -/
def tagVP8 : List Nat := [86, 80, 56, 32]
/-- ASCII bytes of the VP8L chunk tag. -/
def tagVP8L : List Nat := [86, 80, 56, 76]
/-- ASCII bytes of the VP8X chunk tag. -/
def tagVP8X : List Nat := [86, 80, 56, 88]
/-- ASCII bytes of the ICCP chunk tag. -/
def tagICCP : List Nat := [73, 67, 67, 80]
/-- ASCII bytes of the ALPH chunk tag. -/
def tagALPH : List Nat := [65, 76, 80, 72]
/-- ASCII bytes of the EXIF chunk tag. -/
def tagEXIF : List Nat := [69, 88, 73, 70]
/-- ASCII bytes of the XMP chunk tag, with its trailing space. -/
def tagXMP : List Nat := [88, 77, 80, 32]

/-- Embeds vp8_chunk (lines 25-28): the VP8 tag followed by a sized chunk. -/
def vp8_chunk : List Nat → PResult (List Nat) :=
  ppreceded (ptag tagVP8) chunk_size

/-- Embeds vp8l_chunk (lines 30-33). -/
def vp8l_chunk : List Nat → PResult (List Nat) :=
  ppreceded (ptag tagVP8L) chunk_size

/-- Embeds vp8x_chunk (lines 35-38). -/
def vp8x_chunk : List Nat → PResult (List Nat) :=
  ppreceded (ptag tagVP8X) chunk_size

/-- Embeds iccp_chunk (lines 40-43). -/
def iccp_chunk : List Nat → PResult (List Nat) :=
  ppreceded (ptag tagICCP) chunk_size

/-- Embeds alph_chunk (lines 45-48). -/
def alph_chunk : List Nat → PResult (List Nat) :=
  ppreceded (ptag tagALPH) chunk_size

/-- Embeds exif_chunk (lines 50-53). -/
def exif_chunk : List Nat → PResult (List Nat) :=
  ppreceded (ptag tagEXIF) chunk_size

/-- Embeds xmp_chunk (lines 55-58). -/
def xmp_chunk : List Nat → PResult (List Nat) :=
  ppreceded (ptag tagXMP) chunk_size

/-- Embeds the ImageData enum (lines 100-104): note LossyWithAlpha carries
the color (lossy) bytes first and the alpha bytes second. -/
inductive ImageData where
  | Lossy (b : List Nat)
  | Lossless (b : List Nat)
  | LossyWithAlpha (rgb : List Nat) (a : List Nat)
deriving DecidableEq, Repr

/-- Embeds extended (lines 60-73): after a VP8X chunk, an optional ICCP
chunk, then exactly one of ALPH+VP8 / VP8 / VP8L, then optional EXIF and
optional XMP (each wrapped in complete! so that running out of input counts
as absent). -/
def extended : List Nat → PResult ImageData :=
  pbind vp8x_chunk (fun _ =>
    pbind (popt iccp_chunk) (fun _ =>
      pbind (palt
          (pbind alph_chunk (fun a => pmap vp8_chunk (fun rgb => ImageData.LossyWithAlpha rgb a)))
          (palt (pmap vp8_chunk ImageData.Lossy) (pmap vp8l_chunk ImageData.Lossless)))
        (fun image_data =>
          pbind (popt (pcomplete exif_chunk)) (fun _ =>
            pbind (popt (pcomplete xmp_chunk)) (fun _ =>
              fun i => .done i image_data)))))

/-- Embeds webp_body (lines 75-81): bare VP8, bare VP8L, or the extended
form, in that order of preference. -/
def webp_body : List Nat → PResult ImageData :=
  palt (pmap vp8_chunk ImageData.Lossy)
    (palt (pmap vp8l_chunk ImageData.Lossless) extended)

/-- Embeds webp_file (lines 83-89): the RIFF tag, a 4-byte LE form length
bounding the form body, the WEBP tag, then the body dispatcher. -/
def webp_file : List Nat → PResult ImageData :=
  ppreceded (ptag tagRIFF)
    (pflat_map plength_bytes (ppreceded (ptag tagWEBP) webp_body))

/-- Little-endian 4-byte encoding of a natural number, for building inputs. -/
def le4 (n : Nat) : List Nat :=
  [n % 256, n / 256 % 256, n / 65536 % 256, n / 16777216 % 256]

/-- Embeds the Frame data produced by the external VP8 decoder: width,
height, and the flat row-major luma buffer. -/
structure Frame where
  width : Nat
  height : Nat
  ybuf : List Nat
deriving DecidableEq, Repr

/-- Embeds color::ColorType restricted to the variant this decoder uses. -/
inductive ColorType where
  | Gray (bits : Nat)
deriving DecidableEq, Repr

/-- Embeds image::ImageError restricted to the constructors reachable from
this module.  FormatError stands for FormatError(msg) where msg renders the
nom error; NotEnoughData is returned on an Incomplete parse; DecoderError
stands for arbitrary failures of the external VP8 decoder. -/
inductive ImageError where
  | FormatError
  | NotEnoughData
  | UnsupportedError (feature : String)
  | ImageEnd
  | DecoderError (code : Nat)
deriving DecidableEq, Repr

/-- Embeds the WebpDecoder struct (lines 93-98): the reader is embedded as
the byte list it will yield to read_to_end. -/
structure WebpDecoder where
  input : List Nat
  frame : Frame
  have_frame : Bool
  decoded_rows : Nat
deriving DecidableEq, Repr

/-- Embeds WebpDecoder::new (lines 109-118): default frame, no frame yet,
scanline cursor at zero. -/
def WebpDecoder.new (input : List Nat) : WebpDecoder :=
  { input := input
    frame := { width := 0, height := 0, ybuf := [] }
    have_frame := false
    decoded_rows := 0 }

/-- Embeds read_metadata (lines 131-159).  The external VP8 decoder
(read_vp8_frame, lines 120-129) is the parameter dec; on its success the
frame is cached and have_frame set.  Rust mutates self in place, so every
operation returns the result paired with the updated state. -/
def read_metadata (dec : List Nat → Except ImageError Frame) (s : WebpDecoder) :
    Except ImageError Unit × WebpDecoder :=
  if s.have_frame then (.ok Unit.unit, s)
  else
    match webp_file s.input with
    | .done _ img =>
        match img with
        | .Lossy vp8 =>
            match dec vp8 with
            | .ok f => (.ok Unit.unit, { s with frame := f, have_frame := true })
            | .error e => (.error e, s)
        | .LossyWithAlpha vp8 _ =>
            match dec vp8 with
            | .ok f => (.ok Unit.unit, { s with frame := f, have_frame := true })
            | .error e => (.error e, s)
        | .Lossless _ => (.error (.UnsupportedError "Lossless WebP"), s)
    | .error => (.error .FormatError, s)
    | .incomplete => (.error .NotEnoughData, s)

/-- Embeds dimensions (lines 163-167). -/
def dimensions (dec : List Nat → Except ImageError Frame) (s : WebpDecoder) :
    Except ImageError (Nat × Nat) × WebpDecoder :=
  match read_metadata dec s with
  | (.ok _, s1) => (.ok (s1.frame.width, s1.frame.height), s1)
  | (.error e, s1) => (.error e, s1)

/-- Embeds colortype (lines 169-171): returns the constant Gray(8) without
touching read_metadata. -/
def colortype (s : WebpDecoder) : Except ImageError ColorType × WebpDecoder :=
  (.ok (.Gray 8), s)

/-- Embeds row_len (lines 173-177). -/
def row_len (dec : List Nat → Except ImageError Frame) (s : WebpDecoder) :
    Except ImageError Nat × WebpDecoder :=
  match read_metadata dec s with
  | (.ok _, s1) => (.ok s1.frame.width, s1)
  | (.error e, s1) => (.error e, s1)

/-- Outcome of read_scanline: the row copied into the caller's buffer plus
the returned counter, an ImageResult error, or a Rust panic caused by an
out-of-bounds slice of ybuf. -/
inductive ScanResult where
  | ok (row : List Nat) (ret : Nat)
  | err (e : ImageError)
  | panicked
deriving DecidableEq, Repr

/-- Embeds read_scanline (lines 179-196).  rlen is the length of the
caller's buffer; the slice ybuf[decoded_rows*rlen .. decoded_rows*rlen+rlen]
panics when its upper bound exceeds ybuf's length, exactly as Rust slice
indexing does.  Note the guard is decoded_rows > height, a strict
comparison. -/
def read_scanline (dec : List Nat → Except ImageError Frame) (rlen : Nat)
    (s : WebpDecoder) : ScanResult × WebpDecoder :=
  match read_metadata dec s with
  | (.error e, s1) => (.err e, s1)
  | (.ok _, s1) =>
      if s1.decoded_rows > s1.frame.height then (.err .ImageEnd, s1)
      else if s1.decoded_rows * rlen + rlen ≤ s1.frame.ybuf.length then
        (.ok ((s1.frame.ybuf.drop (s1.decoded_rows * rlen)).take rlen) (s1.decoded_rows + 1),
          { s1 with decoded_rows := s1.decoded_rows + 1 })
      else (.panicked, s1)

/-- Embeds read_image (lines 198-202): the whole cached pixel buffer,
independent of the scanline cursor. -/
def read_image (dec : List Nat → Except ImageError Frame) (s : WebpDecoder) :
    Except ImageError (List Nat) × WebpDecoder :=
  match read_metadata dec s with
  | (.ok _, s1) => (.ok s1.frame.ybuf, s1)
  | (.error e, s1) => (.error e, s1)

/-!  Concrete fixtures used by witnesses and counterexamples. -/

/-- Simple lossy container: RIFF form of size 14 holding a bare VP8 chunk
with the two payload bytes [7, 7]. -/
def lossyContainer : List Nat :=
  tagRIFF ++ le4 14 ++ tagWEBP ++ tagVP8 ++ le4 2 ++ [7, 7]

/-- Simple lossless container: a bare VP8L chunk with payload [5, 5]. -/
def losslessContainer : List Nat :=
  tagRIFF ++ le4 14 ++ tagWEBP ++ tagVP8L ++ le4 2 ++ [5, 5]

/-- Fixed 10-byte VP8X chunk body used by the extended fixtures. -/
def vp8xBody : List Nat := [0, 0, 0, 0, 0, 0, 0, 0, 0, 0]

/-- Extended container carrying ALPH [9, 9] followed by VP8 [7, 7]. -/
def alphaContainer : List Nat :=
  tagRIFF ++ le4 42 ++ tagWEBP ++ tagVP8X ++ le4 10 ++ vp8xBody ++
    tagALPH ++ le4 2 ++ [9, 9] ++ tagVP8 ++ le4 2 ++ [7, 7]

/-- Extended container whose metadata chunks are out of order: the XMP chunk
comes before the EXIF chunk. -/
def swappedContainer : List Nat :=
  tagRIFF ++ le4 48 ++ tagWEBP ++ tagVP8X ++ le4 10 ++ vp8xBody ++
    tagVP8 ++ le4 2 ++ [7, 7] ++ tagXMP ++ le4 0 ++ tagEXIF ++ le4 0

/-- Stand-in for the external VP8 bitstream decoder in concrete runs: decodes
any payload to a fixed 2-wide, 1-high frame. -/
def decTest : List Nat → Except ImageError Frame :=
  fun _ => .ok { width := 2, height := 1, ybuf := [10, 20] }

/-!  Helper lemmas about the combinators. -/

theorem pbind_done {α β : Type} {p : List Nat → PResult α} {f : α → List Nat → PResult β}
    {i rest : List Nat} {a : α} (h : p i = .done rest a) : pbind p f i = f a rest := by
  simp only [pbind, h]

theorem pbind_err {α β : Type} {p : List Nat → PResult α} {f : α → List Nat → PResult β}
    {i : List Nat} (h : p i = .error) : pbind p f i = .error := by
  simp only [pbind, h]

theorem pbind_inc {α β : Type} {p : List Nat → PResult α} {f : α → List Nat → PResult β}
    {i : List Nat} (h : p i = .incomplete) : pbind p f i = .incomplete := by
  simp only [pbind, h]

theorem ppreceded_done {α β : Type} {p : List Nat → PResult α} {q : List Nat → PResult β}
    {i rest : List Nat} {a : α} (h : p i = .done rest a) : ppreceded p q i = q rest := by
  simp only [ppreceded, pbind, h]

theorem ptag_exact (t rest : List Nat) : ptag t (t ++ rest) = .done rest t := by
  have h1 : t.length ≤ (t ++ rest).length := by simp
  have h2 : (t ++ rest).take t.length = t := List.take_left t rest
  simp [ptag, h1, h2, List.drop_left]

theorem ptag_ne (t u rest : List Nat) (hlen : u.length = t.length) (hne : u ≠ t) :
    ptag t (u ++ rest) = .error := by
  have h1 : t.length ≤ (u ++ rest).length := by
    rw [← hlen]; simp
  have h2 : (u ++ rest).take t.length = u := List.take_left' hlen
  simp [ptag, h1, h2, hne]
  intro hcon
  omega

theorem ptake_exact (l r : List Nat) : ptake l.length (l ++ r) = .done r l := by
  have h1 : l.length ≤ (l ++ r).length := by simp
  simp [ptake, h1, List.take_left, List.drop_left]

theorem le_u32_le4 (n : Nat) (rest : List Nat) (h : n < 4294967296) :
    le_u32 (le4 n ++ rest) = .done rest n := by
  simp only [le4, List.cons_append, List.nil_append, le_u32]
  congr 1
  omega

theorem le_u32_short (i : List Nat) (h : i.length < 4) : le_u32 i = .incomplete := by
  rcases i with _ | ⟨a, _ | ⟨b, _ | ⟨c, _ | ⟨d, rest⟩⟩⟩⟩
  · rfl
  · rfl
  · rfl
  · rfl
  · simp at h; omega

theorem plength_bytes_done (body extra : List Nat) (h : body.length < 4294967296) :
    plength_bytes (le4 body.length ++ (body ++ extra)) = .done extra body := by
  unfold plength_bytes
  rw [pbind_done (le_u32_le4 body.length (body ++ extra) h)]
  exact ptake_exact body extra

theorem chunk_size_even (body rest : List Nat) (h2 : body.length % 2 = 0)
    (h32 : body.length < 4294967296) :
    chunk_size (le4 body.length ++ (body ++ rest)) = .done rest body := by
  have hc : pcond (body.length % 2 != 0) (ptake 1) rest = .done rest none := by
    simp [pcond, h2]
  simp only [chunk_size, pbind_done (le_u32_le4 body.length (body ++ rest) h32),
    pbind_done (ptake_exact body rest), pbind_done hc]

theorem tag_chunk_done (t body rest : List Nat) (h2 : body.length % 2 = 0)
    (h32 : body.length < 4294967296) :
    ppreceded (ptag t) chunk_size (t ++ (le4 body.length ++ (body ++ rest))) = .done rest body := by
  unfold ppreceded
  rw [pbind_done (ptag_exact t (le4 body.length ++ (body ++ rest)))]
  exact chunk_size_even body rest h2 h32

theorem tag_chunk_ne (t u rest : List Nat) (hlen : u.length = t.length) (hne : u ≠ t) :
    ppreceded (ptag t) chunk_size (u ++ rest) = .error := by
  unfold ppreceded
  exact pbind_err (ptag_ne t u rest hlen hne)

theorem pmap_done {α β : Type} {p : List Nat → PResult α} {f : α → β}
    {i rest : List Nat} {a : α} (h : p i = .done rest a) : pmap p f i = .done rest (f a) := by
  simp only [pmap, h]

theorem pmap_err {α β : Type} {p : List Nat → PResult α} {f : α → β}
    {i : List Nat} (h : p i = .error) : pmap p f i = .error := by
  simp only [pmap, h]

theorem palt_done {α : Type} {p q : List Nat → PResult α} {i rest : List Nat} {a : α}
    (h : p i = .done rest a) : palt p q i = .done rest a := by
  simp only [palt, h]

theorem palt_err {α : Type} {p q : List Nat → PResult α} {i : List Nat}
    (h : p i = .error) : palt p q i = q i := by
  simp only [palt, h]

theorem popt_done {α : Type} {p : List Nat → PResult α} {i rest : List Nat} {a : α}
    (h : p i = .done rest a) : popt p i = .done rest (some a) := by
  simp only [popt, h]

theorem popt_err {α : Type} {p : List Nat → PResult α} {i : List Nat}
    (h : p i = .error) : popt p i = .done i none := by
  simp only [popt, h]

theorem popt_complete_done {α : Type} {p : List Nat → PResult α} {i rest : List Nat} {a : α}
    (h : p i = .done rest a) : popt (pcomplete p) i = .done rest (some a) := by
  simp only [popt, pcomplete, h]

theorem popt_complete_err {α : Type} {p : List Nat → PResult α} {i : List Nat}
    (h : p i = .error) : popt (pcomplete p) i = .done i none := by
  simp only [popt, pcomplete, h]

theorem popt_complete_inc {α : Type} {p : List Nat → PResult α} {i : List Nat}
    (h : p i = .incomplete) : popt (pcomplete p) i = .done i none := by
  simp only [popt, pcomplete, h]

theorem tag_chunk_done0 (t body : List Nat) (h2 : body.length % 2 = 0)
    (h32 : body.length < 4294967296) :
    ppreceded (ptag t) chunk_size (t ++ (le4 body.length ++ body)) = .done [] body := by
  have h := tag_chunk_done t body [] h2 h32
  rwa [List.append_nil] at h

theorem tag_chunk_nil (t : List Nat) (h : t ≠ []) :
    ppreceded (ptag t) chunk_size [] = .incomplete := by
  have h1 : ptag t [] = .incomplete := by
    have hlen : ¬ t.length ≤ ([] : List Nat).length := by
      cases t with
      | nil => exact absurd rfl h
      | cons a l => simp
    simp [ptag, hlen]
    intro h0
    exact absurd h0 h
  unfold ppreceded
  exact pbind_inc h1

theorem webp_file_done (body extra r : List Nat) (img : ImageData)
    (h32 : body.length < 4294967296)
    (h : ppreceded (ptag tagWEBP) webp_body body = .done r img) :
    webp_file (tagRIFF ++ (le4 body.length ++ (body ++ extra))) = .done extra img := by
  unfold webp_file
  rw [ppreceded_done (ptag_exact tagRIFF (le4 body.length ++ (body ++ extra)))]
  simp only [pflat_map, plength_bytes_done body extra h32, h]

theorem webp_file_done0 (body r : List Nat) (img : ImageData)
    (h32 : body.length < 4294967296)
    (h : ppreceded (ptag tagWEBP) webp_body body = .done r img) :
    webp_file (tagRIFF ++ (le4 body.length ++ body)) = .done [] img := by
  have hw := webp_file_done body [] r img h32 h
  rwa [List.append_nil] at hw

theorem webp_file_inc (body extra : List Nat)
    (h32 : body.length < 4294967296)
    (h : ppreceded (ptag tagWEBP) webp_body body = .incomplete) :
    webp_file (tagRIFF ++ (le4 body.length ++ (body ++ extra))) = .incomplete := by
  unfold webp_file
  rw [ppreceded_done (ptag_exact tagRIFF (le4 body.length ++ (body ++ extra)))]
  simp only [pflat_map, plength_bytes_done body extra h32, h]

theorem inner_lossy (payload rest : List Nat) (h2 : payload.length % 2 = 0)
    (h32 : payload.length < 4294967296) :
    ppreceded (ptag tagWEBP) webp_body
      (tagWEBP ++ (tagVP8 ++ (le4 payload.length ++ (payload ++ rest)))) =
      .done rest (.Lossy payload) := by
  rw [ppreceded_done (ptag_exact tagWEBP (tagVP8 ++ (le4 payload.length ++ (payload ++ rest))))]
  have h1 : vp8_chunk (tagVP8 ++ (le4 payload.length ++ (payload ++ rest))) =
      .done rest payload := tag_chunk_done tagVP8 payload rest h2 h32
  unfold webp_body
  rw [palt_done (pmap_done h1)]

theorem inner_alpha (a rgb : List Nat) (ha : a.length % 2 = 0) (hrgb : rgb.length % 2 = 0)
    (ha32 : a.length < 4294967296) (hrgb32 : rgb.length < 4294967296) :
    ppreceded (ptag tagWEBP) webp_body
      (tagWEBP ++ (tagVP8X ++ (le4 10 ++ (vp8xBody ++
        (tagALPH ++ (le4 a.length ++ (a ++
        (tagVP8 ++ (le4 rgb.length ++ rgb))))))))) =
      .done [] (.LossyWithAlpha rgb a) := by
  rw [ppreceded_done (ptag_exact tagWEBP _)]
  unfold webp_body
  have hne1 : vp8_chunk (tagVP8X ++ (le4 10 ++ (vp8xBody ++
      (tagALPH ++ (le4 a.length ++ (a ++ (tagVP8 ++ (le4 rgb.length ++ rgb)))))))) = .error :=
    tag_chunk_ne tagVP8 tagVP8X _ rfl (by decide)
  have hne2 : vp8l_chunk (tagVP8X ++ (le4 10 ++ (vp8xBody ++
      (tagALPH ++ (le4 a.length ++ (a ++ (tagVP8 ++ (le4 rgb.length ++ rgb)))))))) = .error :=
    tag_chunk_ne tagVP8L tagVP8X _ rfl (by decide)
  rw [palt_err (pmap_err hne1), palt_err (pmap_err hne2)]
  have hx : vp8x_chunk (tagVP8X ++ (le4 10 ++ (vp8xBody ++
      (tagALPH ++ (le4 a.length ++ (a ++ (tagVP8 ++ (le4 rgb.length ++ rgb)))))))) =
      .done (tagALPH ++ (le4 a.length ++ (a ++ (tagVP8 ++ (le4 rgb.length ++ rgb))))) vp8xBody :=
    tag_chunk_done tagVP8X vp8xBody _ (by decide) (by decide)
  have hiccp : iccp_chunk (tagALPH ++ (le4 a.length ++ (a ++
      (tagVP8 ++ (le4 rgb.length ++ rgb))))) = .error :=
    tag_chunk_ne tagICCP tagALPH _ rfl (by decide)
  have halph : alph_chunk (tagALPH ++ (le4 a.length ++ (a ++
      (tagVP8 ++ (le4 rgb.length ++ rgb))))) =
      .done (tagVP8 ++ (le4 rgb.length ++ rgb)) a :=
    tag_chunk_done tagALPH a _ ha ha32
  have hrgbc : vp8_chunk (tagVP8 ++ (le4 rgb.length ++ rgb)) = .done [] rgb :=
    tag_chunk_done0 tagVP8 rgb hrgb hrgb32
  have hexif : popt (pcomplete exif_chunk) ([] : List Nat) = .done [] none :=
    popt_complete_inc (tag_chunk_nil tagEXIF (by decide))
  have hxmp : popt (pcomplete xmp_chunk) ([] : List Nat) = .done [] none :=
    popt_complete_inc (tag_chunk_nil tagXMP (by decide))
  have hbranch : pbind alph_chunk
      (fun a2 => pmap vp8_chunk fun rgb2 => ImageData.LossyWithAlpha rgb2 a2)
      (tagALPH ++ (le4 a.length ++ (a ++ (tagVP8 ++ (le4 rgb.length ++ rgb))))) =
      .done [] (ImageData.LossyWithAlpha rgb a) := by
    rw [pbind_done halph]
    exact pmap_done hrgbc
  unfold extended
  rw [pbind_done hx]
  rw [pbind_done (popt_err hiccp)]
  rw [pbind_done (palt_done hbranch)]
  rw [pbind_done hexif, pbind_done hxmp]

theorem inner_swapped (p x e : List Nat) (hp : p.length % 2 = 0) (hx : x.length % 2 = 0)
    (hp32 : p.length < 4294967296) (hx32 : x.length < 4294967296) :
    ppreceded (ptag tagWEBP) webp_body
      (tagWEBP ++ (tagVP8X ++ (le4 10 ++ (vp8xBody ++
        (tagVP8 ++ (le4 p.length ++ (p ++
        (tagXMP ++ (le4 x.length ++ (x ++
        (tagEXIF ++ (le4 e.length ++ e)))))))))))) =
      .done (tagEXIF ++ (le4 e.length ++ e)) (.Lossy p) := by
  rw [ppreceded_done (ptag_exact tagWEBP _)]
  unfold webp_body
  have hne1 : vp8_chunk (tagVP8X ++ (le4 10 ++ (vp8xBody ++
      (tagVP8 ++ (le4 p.length ++ (p ++ (tagXMP ++ (le4 x.length ++ (x ++
      (tagEXIF ++ (le4 e.length ++ e))))))))))) = .error :=
    tag_chunk_ne tagVP8 tagVP8X _ rfl (by decide)
  have hne2 : vp8l_chunk (tagVP8X ++ (le4 10 ++ (vp8xBody ++
      (tagVP8 ++ (le4 p.length ++ (p ++ (tagXMP ++ (le4 x.length ++ (x ++
      (tagEXIF ++ (le4 e.length ++ e))))))))))) = .error :=
    tag_chunk_ne tagVP8L tagVP8X _ rfl (by decide)
  rw [palt_err (pmap_err hne1), palt_err (pmap_err hne2)]
  have hx8 : vp8x_chunk (tagVP8X ++ (le4 10 ++ (vp8xBody ++
      (tagVP8 ++ (le4 p.length ++ (p ++ (tagXMP ++ (le4 x.length ++ (x ++
      (tagEXIF ++ (le4 e.length ++ e))))))))))) =
      .done (tagVP8 ++ (le4 p.length ++ (p ++ (tagXMP ++ (le4 x.length ++ (x ++
        (tagEXIF ++ (le4 e.length ++ e)))))))) vp8xBody :=
    tag_chunk_done tagVP8X vp8xBody _ (by decide) (by decide)
  have hiccp : iccp_chunk (tagVP8 ++ (le4 p.length ++ (p ++ (tagXMP ++ (le4 x.length ++ (x ++
      (tagEXIF ++ (le4 e.length ++ e)))))))) = .error :=
    tag_chunk_ne tagICCP tagVP8 _ rfl (by decide)
  have halph : alph_chunk (tagVP8 ++ (le4 p.length ++ (p ++ (tagXMP ++ (le4 x.length ++ (x ++
      (tagEXIF ++ (le4 e.length ++ e)))))))) = .error :=
    tag_chunk_ne tagALPH tagVP8 _ rfl (by decide)
  have hpay : vp8_chunk (tagVP8 ++ (le4 p.length ++ (p ++ (tagXMP ++ (le4 x.length ++ (x ++
      (tagEXIF ++ (le4 e.length ++ e)))))))) =
      .done (tagXMP ++ (le4 x.length ++ (x ++ (tagEXIF ++ (le4 e.length ++ e))))) p :=
    tag_chunk_done tagVP8 p _ hp hp32
  have hexif : exif_chunk (tagXMP ++ (le4 x.length ++ (x ++
      (tagEXIF ++ (le4 e.length ++ e))))) = .error :=
    tag_chunk_ne tagEXIF tagXMP _ rfl (by decide)
  have hxmp : xmp_chunk (tagXMP ++ (le4 x.length ++ (x ++
      (tagEXIF ++ (le4 e.length ++ e))))) = .done (tagEXIF ++ (le4 e.length ++ e)) x :=
    tag_chunk_done tagXMP x _ hx hx32
  have hbranch : palt
      (pbind alph_chunk fun a2 => pmap vp8_chunk fun rgb2 => ImageData.LossyWithAlpha rgb2 a2)
      (palt (pmap vp8_chunk ImageData.Lossy) (pmap vp8l_chunk ImageData.Lossless))
      (tagVP8 ++ (le4 p.length ++ (p ++ (tagXMP ++ (le4 x.length ++ (x ++
        (tagEXIF ++ (le4 e.length ++ e)))))))) =
      .done (tagXMP ++ (le4 x.length ++ (x ++ (tagEXIF ++ (le4 e.length ++ e)))))
        (ImageData.Lossy p) := by
    rw [palt_err (pbind_err halph)]
    exact palt_done (pmap_done hpay)
  unfold extended
  rw [pbind_done hx8]
  rw [pbind_done (popt_err hiccp)]
  rw [pbind_done hbranch]
  rw [pbind_done (popt_complete_err hexif)]
  rw [pbind_done (popt_complete_done hxmp)]

/-!  Claim theorems. -/

/-- C2: the chunk grammar reads a 4-byte little-endian length L and returns
exactly the next L bytes as the body; when L is even no padding byte is
consumed (the remaining input starts right after the body), and when L is
odd exactly one additional byte after the body is consumed and is not part
of the returned body. -/
theorem chunk_grammar_len_and_padding (len : Nat) (rest : List Nat)
    (h32 : len < 4294967296) (hlen : len + len % 2 ≤ rest.length) :
    chunk_size (le4 len ++ rest) = .done (rest.drop (len + len % 2)) (rest.take len) := by
  have h1 : len ≤ rest.length := le_trans (Nat.le_add_right _ _) hlen
  have htake : ptake len rest = .done (rest.drop len) (rest.take len) := by
    unfold ptake
    rw [if_pos h1]
  rcases Nat.mod_two_eq_zero_or_one len with hp | hp
  · have hc : pcond (len % 2 != 0) (ptake 1) (rest.drop len) = .done (rest.drop len) none := by
      simp [pcond, hp]
    simp only [chunk_size, pbind_done (le_u32_le4 len rest h32), pbind_done htake,
      pbind_done hc]
    rw [hp]
    rfl
  · have hlen1 : 1 ≤ (rest.drop len).length := by
      simp only [List.length_drop]
      omega
    have ht1 : ptake 1 (rest.drop len) =
        .done ((rest.drop len).drop 1) ((rest.drop len).take 1) := by
      unfold ptake
      rw [if_pos hlen1]
    have hc : pcond (len % 2 != 0) (ptake 1) (rest.drop len) =
        .done ((rest.drop len).drop 1) (some ((rest.drop len).take 1)) := by
      simp [pcond, hp, pmap, ht1]
    simp only [chunk_size, pbind_done (le_u32_le4 len rest h32), pbind_done htake,
      pbind_done hc]
    rw [List.drop_drop, hp]

/-- C2 witness: a concrete odd-length chunk, length 3 with one pad byte. -/
theorem chunk_grammar_len_and_padding_witness :
    chunk_size (le4 3 ++ [1, 2, 3, 9, 7]) =
      .done (([1, 2, 3, 9, 7] : List Nat).drop (3 + 3 % 2)) (([1, 2, 3, 9, 7] : List Nat).take 3) :=
  chunk_grammar_len_and_padding 3 [1, 2, 3, 9, 7] (by decide) (by decide)

/-- C3: a simple container RIFF, consistent form size, WEBP, a VP8 chunk of
even length len and its payload, parses to the Lossy variant carrying
exactly the payload bytes, with nothing left over. -/
theorem simple_lossy_roundtrip (payload : List Nat) (h2 : payload.length % 2 = 0)
    (h32 : payload.length + 12 < 4294967296) :
    webp_file (tagRIFF ++ (le4 (12 + payload.length) ++
      (tagWEBP ++ (tagVP8 ++ (le4 payload.length ++ payload))))) =
      .done [] (.Lossy payload) := by
  have hBlen : (tagWEBP ++ (tagVP8 ++ (le4 payload.length ++ payload))).length =
      12 + payload.length := by
    simp only [tagWEBP, tagVP8, le4, List.length_append, List.length_cons, List.length_nil]
    omega
  have hi := inner_lossy payload [] h2 (by omega)
  rw [List.append_nil] at hi
  rw [show (12 + payload.length) =
      (tagWEBP ++ (tagVP8 ++ (le4 payload.length ++ payload))).length from hBlen.symm]
  exact webp_file_done0 _ [] (.Lossy payload) (by rw [hBlen]; omega) hi

/-- C3 witness: the concrete payload [7, 7]. -/
theorem simple_lossy_roundtrip_witness :
    webp_file (tagRIFF ++ (le4 (12 + ([7, 7] : List Nat).length) ++
      (tagWEBP ++ (tagVP8 ++ (le4 ([7, 7] : List Nat).length ++ [7, 7]))))) =
      .done [] (.Lossy [7, 7]) :=
  simple_lossy_roundtrip [7, 7] (by decide) (by decide)

/-- C4: an extended container with VP8X, then an ALPH chunk immediately
followed by a VP8 chunk, parses to LossyWithAlpha whose first component is
exactly the VP8 chunk body (color) and whose second is exactly the ALPH
chunk body (alpha). -/
theorem extended_alpha_pairing (a rgb : List Nat) (ha : a.length % 2 = 0)
    (hrgb : rgb.length % 2 = 0) (h32 : a.length + rgb.length + 38 < 4294967296) :
    webp_file (tagRIFF ++ (le4 (38 + a.length + rgb.length) ++
      (tagWEBP ++ (tagVP8X ++ (le4 10 ++ (vp8xBody ++
        (tagALPH ++ (le4 a.length ++ (a ++
        (tagVP8 ++ (le4 rgb.length ++ rgb))))))))))) =
      .done [] (.LossyWithAlpha rgb a) := by
  have hBlen : (tagWEBP ++ (tagVP8X ++ (le4 10 ++ (vp8xBody ++
      (tagALPH ++ (le4 a.length ++ (a ++
      (tagVP8 ++ (le4 rgb.length ++ rgb))))))))).length = 38 + a.length + rgb.length := by
    simp only [tagWEBP, tagVP8X, tagALPH, tagVP8, vp8xBody, le4, List.length_append,
      List.length_cons, List.length_nil]
    omega
  have hi := inner_alpha a rgb ha hrgb (by omega) (by omega)
  rw [show (38 + a.length + rgb.length) =
      (tagWEBP ++ (tagVP8X ++ (le4 10 ++ (vp8xBody ++
        (tagALPH ++ (le4 a.length ++ (a ++
        (tagVP8 ++ (le4 rgb.length ++ rgb))))))))).length from hBlen.symm]
  exact webp_file_done0 _ [] (.LossyWithAlpha rgb a) (by rw [hBlen]; omega) hi

/-- C5 counterexample: an otherwise valid extended container with the XMP
chunk placed before the EXIF chunk does not fail with UnrecognizedContainer;
webp_file succeeds and returns the Lossy payload.  The XMP chunk is consumed
as the optional trailing XMP element and the misplaced EXIF chunk is left
inside the form body, where flat_map discards it. -/
theorem xmp_before_exif_succeeds : webp_file swappedContainer = .done [] (.Lossy [7, 7]) := by
  rfl

/-- C5 amended: in an otherwise valid extended container where XMP precedes
EXIF, parsing succeeds with the payload variant; the optional-EXIF rule sees
the XMP tag and treats EXIF as absent, the XMP chunk is consumed, and the
trailing EXIF chunk bytes are ignored as unparsed residue of the form body
rather than rejected. -/
theorem xmp_before_exif_amended (p x e : List Nat) (hp : p.length % 2 = 0)
    (hx : x.length % 2 = 0) (h32 : p.length + x.length + e.length + 46 < 4294967296) :
    webp_file (tagRIFF ++ (le4 (46 + p.length + x.length + e.length) ++
      (tagWEBP ++ (tagVP8X ++ (le4 10 ++ (vp8xBody ++
        (tagVP8 ++ (le4 p.length ++ (p ++
        (tagXMP ++ (le4 x.length ++ (x ++
        (tagEXIF ++ (le4 e.length ++ e)))))))))))))) =
      .done [] (.Lossy p) := by
  have hBlen : (tagWEBP ++ (tagVP8X ++ (le4 10 ++ (vp8xBody ++
      (tagVP8 ++ (le4 p.length ++ (p ++
      (tagXMP ++ (le4 x.length ++ (x ++
      (tagEXIF ++ (le4 e.length ++ e)))))))))))).length =
      46 + p.length + x.length + e.length := by
    simp only [tagWEBP, tagVP8X, tagVP8, tagXMP, tagEXIF, vp8xBody, le4, List.length_append,
      List.length_cons, List.length_nil]
    omega
  have hi := inner_swapped p x e hp hx (by omega) (by omega)
  rw [show (46 + p.length + x.length + e.length) =
      (tagWEBP ++ (tagVP8X ++ (le4 10 ++ (vp8xBody ++
        (tagVP8 ++ (le4 p.length ++ (p ++
        (tagXMP ++ (le4 x.length ++ (x ++
        (tagEXIF ++ (le4 e.length ++ e)))))))))))).length from hBlen.symm]
  exact webp_file_done0 _ _ (.Lossy p) (by rw [hBlen]; omega) hi

/-- C5 amended witness: payload [7, 7], empty XMP body, empty EXIF body. -/
theorem xmp_before_exif_amended_witness :
    webp_file (tagRIFF ++ (le4 (46 + ([7, 7] : List Nat).length +
        ([] : List Nat).length + ([] : List Nat).length) ++
      (tagWEBP ++ (tagVP8X ++ (le4 10 ++ (vp8xBody ++
        (tagVP8 ++ (le4 ([7, 7] : List Nat).length ++ ([7, 7] ++
        (tagXMP ++ (le4 ([] : List Nat).length ++ (([] : List Nat) ++
        (tagEXIF ++ (le4 ([] : List Nat).length ++ ([] : List Nat))))))))))))))) =
      .done [] (.Lossy [7, 7]) :=
  xmp_before_exif_amended [7, 7] [] [] (by decide) (by decide) (by decide)

/-- C6: when the container parses to the Lossless variant, read_metadata and
every accessor that consults it (dimensions, row length, scanline, whole
image) fail with UnsupportedError "Lossless WebP", and no frame is cached:
the state is returned unchanged with have_frame still false. -/
theorem lossless_unsupported (dec : List Nat → Except ImageError Frame) (s : WebpDecoder)
    (r b : List Nat) (h0 : s.have_frame = false)
    (hp : webp_file s.input = .done r (.Lossless b)) :
    read_metadata dec s = (.error (.UnsupportedError "Lossless WebP"), s) ∧
    dimensions dec s = (.error (.UnsupportedError "Lossless WebP"), s) ∧
    row_len dec s = (.error (.UnsupportedError "Lossless WebP"), s) ∧
    (∀ rlen, read_scanline dec rlen s = (.err (.UnsupportedError "Lossless WebP"), s)) ∧
    read_image dec s = (.error (.UnsupportedError "Lossless WebP"), s) ∧
    (read_metadata dec s).2.have_frame = false := by
  have hm : read_metadata dec s = (.error (.UnsupportedError "Lossless WebP"), s) := by
    simp [read_metadata, h0, hp]
  refine ⟨hm, ?_, ?_, ?_, ?_, ?_⟩
  · simp only [dimensions, hm]
  · simp only [row_len, hm]
  · intro rlen
    simp only [read_scanline, hm]
  · simp only [read_image, hm]
  · rw [hm, h0]

/-- C6 witness: the concrete lossless container with body [5, 5]. -/
theorem lossless_unsupported_witness :
    read_metadata decTest (WebpDecoder.new losslessContainer) =
      (.error (.UnsupportedError "Lossless WebP"), WebpDecoder.new losslessContainer) :=
  (lossless_unsupported decTest (WebpDecoder.new losslessContainer) [] [5, 5] rfl rfl).1

/-- C4 witness: alpha body [9, 9] and color body [7, 7]. -/
theorem extended_alpha_pairing_witness :
    webp_file (tagRIFF ++ (le4 (38 + ([9, 9] : List Nat).length + ([7, 7] : List Nat).length) ++
      (tagWEBP ++ (tagVP8X ++ (le4 10 ++ (vp8xBody ++
        (tagALPH ++ (le4 ([9, 9] : List Nat).length ++ ([9, 9] ++
        (tagVP8 ++ (le4 ([7, 7] : List Nat).length ++ [7, 7]))))))))))) =
      .done [] (.LossyWithAlpha [7, 7] [9, 9]) :=
  extended_alpha_pairing [9, 9] [7, 7] (by decide) (by decide) (by decide)

/-- C7: truncation is detected, never silently tolerated: (1) fewer than 4
bytes for the length field is Incomplete; (2) fewer than L plus the
conditional pad byte after the length field is Incomplete; (3) a successful
chunk parse returns a body of exactly the declared length L, taken verbatim
from the bytes after the length field, consuming L plus the conditional pad;
(4) an Incomplete container parse surfaces as the NotEnoughData error from
read_metadata. -/
theorem truncation_detected :
    (∀ i : List Nat, i.length < 4 → chunk_size i = .incomplete) ∧
    (∀ (len : Nat) (rest : List Nat), len < 4294967296 → rest.length < len + len % 2 →
      chunk_size (le4 len ++ rest) = .incomplete) ∧
    (∀ (i rest : List Nat) (len : Nat) (r b : List Nat),
      le_u32 i = .done rest len → chunk_size i = .done r b →
      b = rest.take len ∧ b.length = len ∧ r = rest.drop (len + len % 2)) ∧
    (∀ (dec : List Nat → Except ImageError Frame) (s : WebpDecoder),
      s.have_frame = false → webp_file s.input = .incomplete →
      read_metadata dec s = (.error .NotEnoughData, s)) := by
  refine ⟨?_, ?_, ?_, ?_⟩
  · intro i h
    unfold chunk_size
    exact pbind_inc (le_u32_short i h)
  · intro len rest h32 hshort
    by_cases hl : len ≤ rest.length
    · have hp : len % 2 = 1 := by omega
      have htake : ptake len rest = .done (rest.drop len) (rest.take len) := by
        unfold ptake
        rw [if_pos hl]
      have ht1 : ptake 1 (rest.drop len) = .incomplete := by
        unfold ptake
        rw [if_neg]
        simp only [List.length_drop]
        omega
      have hc : pcond (len % 2 != 0) (ptake 1) (rest.drop len) = .incomplete := by
        simp [pcond, hp, pmap, ht1]
      simp only [chunk_size, pbind_done (le_u32_le4 len rest h32), pbind_done htake,
        pbind_inc hc]
    · have htake : ptake len rest = .incomplete := by
        unfold ptake
        rw [if_neg hl]
      simp only [chunk_size, pbind_done (le_u32_le4 len rest h32), pbind_inc htake]
  · intro i rest len r b hle h
    simp only [chunk_size, pbind_done hle] at h
    by_cases hl : len ≤ rest.length
    · have htake : ptake len rest = .done (rest.drop len) (rest.take len) := by
        unfold ptake
        rw [if_pos hl]
      simp only [pbind_done htake] at h
      rcases Nat.mod_two_eq_zero_or_one len with hp | hp
      · have hc : pcond (len % 2 != 0) (ptake 1) (rest.drop len) =
            .done (rest.drop len) none := by
          simp [pcond, hp]
        simp only [pbind_done hc, PResult.done.injEq] at h
        obtain ⟨h1, h2⟩ := h
        refine ⟨h2.symm, ?_, ?_⟩
        · rw [← h2, List.length_take]
          omega
        · rw [← h1, hp]
          rfl
      · by_cases h1 : 1 ≤ (rest.drop len).length
        · have ht1 : ptake 1 (rest.drop len) =
              .done ((rest.drop len).drop 1) ((rest.drop len).take 1) := by
            unfold ptake
            rw [if_pos h1]
          have hc : pcond (len % 2 != 0) (ptake 1) (rest.drop len) =
              .done ((rest.drop len).drop 1) (some ((rest.drop len).take 1)) := by
            simp [pcond, hp, pmap, ht1]
          simp only [pbind_done hc, PResult.done.injEq] at h
          obtain ⟨hr, hb⟩ := h
          refine ⟨hb.symm, ?_, ?_⟩
          · rw [← hb, List.length_take]
            omega
          · rw [← hr, List.drop_drop, hp]
        · have ht1 : ptake 1 (rest.drop len) = .incomplete := by
            unfold ptake
            rw [if_neg h1]
          have hc : pcond (len % 2 != 0) (ptake 1) (rest.drop len) = .incomplete := by
            simp [pcond, hp, pmap, ht1]
          simp only [pbind_inc hc] at h
          cases h
    · have htake : ptake len rest = .incomplete := by
        unfold ptake
        rw [if_neg hl]
      simp only [pbind_inc htake] at h
      cases h
  · intro dec s h0 hp
    simp [read_metadata, h0, hp]

/-- C7 witness: a 2-byte input lacks a length field; a declared length of 5
with only 3 bytes left is short. -/
theorem truncation_detected_witness :
    chunk_size [1, 0] = .incomplete ∧ chunk_size (le4 5 ++ [1, 2, 3]) = .incomplete :=
  ⟨truncation_detected.1 [1, 0] (by decide),
    truncation_detected.2.1 5 [1, 2, 3] (by decide) (by decide)⟩

/-- C8: the RIFF envelope takes exactly the declared number of bytes as the
form body; whatever the dispatcher produced on that body is the result, and
arbitrary appended bytes are returned unconsumed, never parsed as chunks. -/
theorem trailing_bytes_ignored (body extra r : List Nat) (img : ImageData)
    (h32 : body.length < 4294967296)
    (h : ppreceded (ptag tagWEBP) webp_body body = .done r img) :
    webp_file (tagRIFF ++ (le4 body.length ++ (body ++ extra))) = .done extra img :=
  webp_file_done body extra r img h32 h

/-- C8 witness: the simple lossy form body followed by three junk bytes. -/
theorem trailing_bytes_ignored_witness :
    webp_file (tagRIFF ++ (le4 (tagWEBP ++ (tagVP8 ++ (le4 2 ++ [7, 7]))).length ++
      ((tagWEBP ++ (tagVP8 ++ (le4 2 ++ [7, 7]))) ++ [1, 2, 3]))) =
      .done [1, 2, 3] (.Lossy [7, 7]) :=
  trailing_bytes_ignored (tagWEBP ++ (tagVP8 ++ (le4 2 ++ [7, 7]))) [1, 2, 3] []
    (.Lossy [7, 7]) (by decide) (by decide)

/-- C1: code-bug evaluation.  With a decoded frame of height 1 (and row
length 2 matching the buffer), the first read_scanline call succeeds and
delivers row 0, but the second call — the H+1-th, which the claim and spec
say must fail with EndOfImage — passes the strict decoded_rows > height
guard (1 > 1 is false) and slices ybuf[2..4] out of bounds: a Rust panic
that reads past the frame buffer, not an EndOfImage error. -/
theorem scanline_past_height_panics :
    (read_scanline decTest 2 (WebpDecoder.new lossyContainer)).1 = .ok [10, 20] 1 ∧
    (read_scanline decTest 2 (read_scanline decTest 2 (WebpDecoder.new lossyContainer)).2).1 =
      .panicked ∧
    (read_scanline decTest 2 (read_scanline decTest 2 (WebpDecoder.new lossyContainer)).2).1 ≠
      .err .ImageEnd := by
  refine ⟨rfl, rfl, ?_⟩
  decide

/-- C9 counterexample: the pixel-format accessor does not trigger the
one-time parse.  On a freshly constructed adapter over a perfectly valid
container, colortype succeeds with the constant Gray(8) and leaves the state
with have_frame still false — the claimed Unparsed-to-Parsed transition on
a first accessor call does not happen for this accessor. -/
theorem colortype_no_parse :
    colortype (WebpDecoder.new lossyContainer) =
      (.ok (.Gray 8), WebpDecoder.new lossyContainer) ∧
    (colortype (WebpDecoder.new lossyContainer)).2.have_frame = false :=
  ⟨rfl, rfl⟩

/-- C9 amended: the first call to dimensions, row length, or the whole-image
accessor (and, via read_metadata, a scanline read) triggers the one-time
parse and decode and moves the state to Parsed; the pixel-format accessor
never parses and returns the constant Gray(8) with the state untouched; in
the Parsed state read_metadata and the accessors read only cached state and
never re-parse, returning the state unchanged for any decoder function. -/
theorem accessor_trigger_amended (dec : List Nat → Except ImageError Frame) (s : WebpDecoder) :
    colortype s = (.ok (.Gray 8), s) ∧
    (s.have_frame = true →
      read_metadata dec s = (.ok Unit.unit, s) ∧
      dimensions dec s = (.ok (s.frame.width, s.frame.height), s) ∧
      row_len dec s = (.ok s.frame.width, s) ∧
      read_image dec s = (.ok s.frame.ybuf, s)) ∧
    (s.have_frame = false → ∀ (r b : List Nat) (f : Frame),
      webp_file s.input = .done r (.Lossy b) → dec b = .ok f →
      dimensions dec s = (.ok (f.width, f.height), { s with frame := f, have_frame := true }) ∧
      row_len dec s = (.ok f.width, { s with frame := f, have_frame := true }) ∧
      read_image dec s = (.ok f.ybuf, { s with frame := f, have_frame := true }) ∧
      (∀ rlen, (read_scanline dec rlen s).2.have_frame = true)) := by
  refine ⟨rfl, ?_, ?_⟩
  · intro h1
    have hm : read_metadata dec s = (.ok Unit.unit, s) := by
      simp [read_metadata, h1]
    exact ⟨hm, by simp only [dimensions, hm], by simp only [row_len, hm],
      by simp only [read_image, hm]⟩
  · intro h0 r b f hpar hdec
    have hm : read_metadata dec s = (.ok Unit.unit, { s with frame := f, have_frame := true }) := by
      simp [read_metadata, h0, hpar, hdec]
    refine ⟨by simp only [dimensions, hm], by simp only [row_len, hm],
      by simp only [read_image, hm], ?_⟩
    intro rlen
    simp only [read_scanline, hm]
    split
    · rfl
    · split
      · rfl
      · rfl

/-- C9 amended witness: on a fresh adapter over the concrete lossy
container, dimensions triggers the parse and caches the test frame. -/
theorem accessor_trigger_amended_witness :
    dimensions decTest (WebpDecoder.new lossyContainer) =
      (.ok (2, 1), { WebpDecoder.new lossyContainer with
        frame := { width := 2, height := 1, ybuf := [10, 20] }, have_frame := true }) :=
  ((accessor_trigger_amended decTest (WebpDecoder.new lossyContainer)).2.2 rfl [] [7, 7]
    { width := 2, height := 1, ybuf := [10, 20] } rfl rfl).1

/-- C10: the alpha side-stream never influences decoding.  Two adapters in
the Unparsed state with equal cached fields, one over a container parsing to
Lossy(c) and one over a container parsing to LossyWithAlpha(c, a) with the
same color bytes c, produce identical results from read_metadata (same
outcome, same cached frame, same have_frame) and identical values from
every accessor, for every decoder function and any alpha bytes a. -/
theorem alpha_ignored (dec : List Nat → Except ImageError Frame) (s1 s2 : WebpDecoder)
    (c a r1 r2 : List Nat)
    (h1 : s1.have_frame = false) (h2 : s2.have_frame = false)
    (hf : s1.frame = s2.frame) (hd : s1.decoded_rows = s2.decoded_rows)
    (hp1 : webp_file s1.input = .done r1 (.Lossy c))
    (hp2 : webp_file s2.input = .done r2 (.LossyWithAlpha c a)) :
    (read_metadata dec s1).1 = (read_metadata dec s2).1 ∧
    (read_metadata dec s1).2.frame = (read_metadata dec s2).2.frame ∧
    (read_metadata dec s1).2.have_frame = (read_metadata dec s2).2.have_frame ∧
    (dimensions dec s1).1 = (dimensions dec s2).1 ∧
    (row_len dec s1).1 = (row_len dec s2).1 ∧
    (∀ rlen, (read_scanline dec rlen s1).1 = (read_scanline dec rlen s2).1) ∧
    (read_image dec s1).1 = (read_image dec s2).1 := by
  cases hdec : dec c with
  | ok f =>
      have hm1 : read_metadata dec s1 =
          (.ok Unit.unit, { s1 with frame := f, have_frame := true }) := by
        simp [read_metadata, h1, hp1, hdec]
      have hm2 : read_metadata dec s2 =
          (.ok Unit.unit, { s2 with frame := f, have_frame := true }) := by
        simp [read_metadata, h2, hp2, hdec]
      refine ⟨by simp [hm1, hm2], by simp [hm1, hm2], by simp [hm1, hm2], ?_, ?_, ?_, ?_⟩
      · simp [dimensions, hm1, hm2]
      · simp [row_len, hm1, hm2]
      · intro rlen
        simp [read_scanline, hm1, hm2, hd]
        split
        · rfl
        · split <;> rfl
      · simp [read_image, hm1, hm2]
  | error e =>
      have hm1 : read_metadata dec s1 = (.error e, s1) := by
        simp [read_metadata, h1, hp1, hdec]
      have hm2 : read_metadata dec s2 = (.error e, s2) := by
        simp [read_metadata, h2, hp2, hdec]
      refine ⟨by simp [hm1, hm2], by simp [hm1, hm2, hf], by simp [hm1, hm2, h1, h2],
        ?_, ?_, ?_, ?_⟩
      · simp [dimensions, hm1, hm2]
      · simp [row_len, hm1, hm2]
      · intro rlen
        simp [read_scanline, hm1, hm2]
      · simp [read_image, hm1, hm2]

/-- C10 witness: the concrete simple lossy container versus the concrete
extended container with alpha [9, 9] and the same color bytes [7, 7]. -/
theorem alpha_ignored_witness :
    (read_metadata decTest (WebpDecoder.new lossyContainer)).1 =
      (read_metadata decTest (WebpDecoder.new alphaContainer)).1 :=
  (alpha_ignored decTest (WebpDecoder.new lossyContainer) (WebpDecoder.new alphaContainer)
    [7, 7] [9, 9] [] [] rfl rfl rfl rfl rfl rfl).1

end WebpSpec
